import Mathlib

/-!
# Verification of the QR frame-polling / deduplication pipeline

Shallow embedding of `src/qr_scanner.py`: the deduplication window
(`should_process_qr`, `clean_old_qrs`), the URL classifier (`is_valid_url`),
the frame fetch (`fetch_camera_frame`), the base64-prefix handling of
`decode_frame`, the event builder of `send_to_website`, and the poll loop of
`main`, together with theorems settling the specification's claims about them.

Wall-clock times (Python `time.time()` floats) are embedded as rationals;
Python dictionaries as partial maps `String → Option ℚ`; external capabilities
(HTTP transport, image decode, `pyzbar.decode`) as per-cycle oracle inputs.
-/

/-- `SCAN_COOLDOWN = 5` (seconds), the cooldown window `W` of the spec. -/
def SCAN_COOLDOWN : ℚ := 5

/-- Embeds `should_process_qr` (src/qr_scanner.py:147-157).  The global dict
`recent_qrs` and the call to `time.time()` are made explicit arguments; the
result is the returned boolean together with the dict after the call. -/
def should_process_qr (recent_qrs : String → Option ℚ) (current_time : ℚ)
    (qr_data : String) : Bool × (String → Option ℚ) :=
  match recent_qrs qr_data with
  | some last_scan_time =>
      if current_time - last_scan_time < SCAN_COOLDOWN then
        (false, recent_qrs)
      else
        (true, fun q => if q = qr_data then some current_time else recent_qrs q)
  | none =>
      (true, fun q => if q = qr_data then some current_time else recent_qrs q)

/-- Embeds `clean_old_qrs` (src/qr_scanner.py:159-165): deletes every entry
whose timestamp is more than `SCAN_COOLDOWN * 2` seconds old. -/
def clean_old_qrs (recent_qrs : String → Option ℚ) (current_time : ℚ) :
    String → Option ℚ :=
  fun q =>
    match recent_qrs q with
    | some timestamp =>
        if current_time - timestamp > SCAN_COOLDOWN * 2 then none
        else some timestamp
    | none => none

/-- The empty dedup map (`recent_qrs = {}` at module load). -/
def emptyRecent : String → Option ℚ := fun _ => none

theorem should_process_qr_of_none {recent : String → Option ℚ} {now : ℚ}
    {p : String} (h : recent p = none) :
    should_process_qr recent now p =
      (true, fun q => if q = p then some now else recent q) := by
  unfold should_process_qr; rw [h]

theorem should_process_qr_of_recent {recent : String → Option ℚ} {now t : ℚ}
    {p : String} (h : recent p = some t) (hlt : now - t < SCAN_COOLDOWN) :
    should_process_qr recent now p = (false, recent) := by
  unfold should_process_qr; rw [h]; simp [hlt]

theorem should_process_qr_of_stale {recent : String → Option ℚ} {now t : ℚ}
    {p : String} (h : recent p = some t) (hlt : ¬ now - t < SCAN_COOLDOWN) :
    should_process_qr recent now p =
      (true, fun q => if q = p then some now else recent q) := by
  unfold should_process_qr; rw [h]; simp [hlt]

theorem clean_old_qrs_of_none {recent : String → Option ℚ} {now : ℚ}
    {p : String} (h : recent p = none) :
    clean_old_qrs recent now p = none := by
  unfold clean_old_qrs; rw [h]

theorem clean_old_qrs_of_old {recent : String → Option ℚ} {now t : ℚ}
    {p : String} (h : recent p = some t) (hgt : now - t > SCAN_COOLDOWN * 2) :
    clean_old_qrs recent now p = none := by
  unfold clean_old_qrs; rw [h]; simp [hgt]

theorem clean_old_qrs_of_fresh {recent : String → Option ℚ} {now t : ℚ}
    {p : String} (h : recent p = some t)
    (hgt : ¬ now - t > SCAN_COOLDOWN * 2) :
    clean_old_qrs recent now p = some t := by
  unfold clean_old_qrs; rw [h]; simp [hgt]

/-- C1 -- The dedup check accepts a payload exactly when it is absent from the
mapping or its stored last-accepted time is at least `SCAN_COOLDOWN` seconds
old; on acceptance it stores the current time for the payload, on rejection it
returns `false` and leaves the map untouched; consequently an acceptance at
`now` forces a rejection at any `t2` with `now < t2` and
`t2 - now < SCAN_COOLDOWN`. -/
theorem should_process_qr_spec (recent : String → Option ℚ) (now : ℚ)
    (p : String) :
    ((should_process_qr recent now p).1 = true ↔
      (recent p = none ∨ ∃ t, recent p = some t ∧ SCAN_COOLDOWN ≤ now - t))
    ∧ ((should_process_qr recent now p).1 = true →
        (should_process_qr recent now p).2 p = some now)
    ∧ ((should_process_qr recent now p).1 = false →
        (should_process_qr recent now p).2 = recent)
    ∧ (∀ t2 : ℚ, now < t2 → t2 - now < SCAN_COOLDOWN →
        (should_process_qr recent now p).1 = true →
        (should_process_qr ((should_process_qr recent now p).2) t2 p).1
          = false) := by
  have hstore : (should_process_qr recent now p).1 = true →
      (should_process_qr recent now p).2 p = some now := by
    intro hacc
    cases h : recent p with
    | none => rw [should_process_qr_of_none h]; simp
    | some t =>
        by_cases hlt : now - t < SCAN_COOLDOWN
        · rw [should_process_qr_of_recent h hlt] at hacc; exact absurd hacc (by simp)
        · rw [should_process_qr_of_stale h hlt]; simp
  refine ⟨?_, hstore, ?_, ?_⟩
  · cases h : recent p with
    | none =>
        rw [should_process_qr_of_none h]
        exact iff_of_true rfl (Or.inl rfl)
    | some t =>
        by_cases hlt : now - t < SCAN_COOLDOWN
        · rw [should_process_qr_of_recent h hlt]
          refine iff_of_false (by simp) ?_
          rintro (hnone | ⟨t', ht', hge⟩)
          · exact Option.noConfusion hnone
          · injection ht' with ht'; subst ht'; linarith
        · rw [should_process_qr_of_stale h hlt]
          exact iff_of_true rfl (Or.inr ⟨t, rfl, by linarith⟩)
  · intro hrej
    cases h : recent p with
    | none =>
        rw [should_process_qr_of_none h] at hrej
        exact absurd hrej (by simp)
    | some t =>
        by_cases hlt : now - t < SCAN_COOLDOWN
        · rw [should_process_qr_of_recent h hlt]
        · rw [should_process_qr_of_stale h hlt] at hrej
          exact absurd hrej (by simp)
  · intro t2 _ hwin hacc
    have h2 : (should_process_qr recent now p).2 p = some now := hstore hacc
    rw [should_process_qr_of_recent h2 (by linarith)]

theorem should_process_qr_spec_witness :
    (should_process_qr emptyRecent 0 "a").1 = true
    ∧ (should_process_qr ((should_process_qr emptyRecent 0 "a").2) 3 "a").1
        = false := by
  have h := should_process_qr_spec emptyRecent 0 "a"
  have hacc : (should_process_qr emptyRecent 0 "a").1 = true :=
    h.1.mpr (Or.inl rfl)
  exact ⟨hacc, h.2.2.2 3 (by norm_num) (by norm_num [SCAN_COOLDOWN]) hacc⟩

/-- C4 -- The sweep keeps exactly the entries of age at most
`2 * SCAN_COOLDOWN` (so it removes exactly those whose age strictly exceeds
`2 * SCAN_COOLDOWN`), and removing them never changes the boolean outcome of a
`should_process_qr` call at `now`. -/
theorem clean_old_qrs_spec (recent : String → Option ℚ) (now : ℚ) :
    (∀ p t, clean_old_qrs recent now p = some t ↔
      (recent p = some t ∧ now - t ≤ SCAN_COOLDOWN * 2))
    ∧ (∀ p, (should_process_qr (clean_old_qrs recent now) now p).1
          = (should_process_qr recent now p).1) := by
  constructor
  · intro p t
    cases h : recent p with
    | none =>
        rw [clean_old_qrs_of_none h]
        refine iff_of_false (by simp) ?_
        rintro ⟨ht, _⟩
        exact Option.noConfusion ht
    | some t' =>
        by_cases hgt : now - t' > SCAN_COOLDOWN * 2
        · rw [clean_old_qrs_of_old h hgt]
          refine iff_of_false (by simp) ?_
          rintro ⟨ht, hle⟩
          injection ht with ht; subst ht; linarith
        · rw [clean_old_qrs_of_fresh h hgt]
          constructor
          · intro ht; injection ht with ht; subst ht
            exact ⟨rfl, by linarith⟩
          · rintro ⟨ht, _⟩; exact ht
  · intro p
    cases h : recent p with
    | none =>
        rw [should_process_qr_of_none (clean_old_qrs_of_none h),
          should_process_qr_of_none h]
    | some t =>
        by_cases hgt : now - t > SCAN_COOLDOWN * 2
        · have hnl : ¬ now - t < SCAN_COOLDOWN := by
            intro hc
            rw [show SCAN_COOLDOWN = (5 : ℚ) from rfl] at hc hgt
            linarith
          rw [should_process_qr_of_none (clean_old_qrs_of_old h hgt),
            should_process_qr_of_stale h hnl]
        · by_cases hlt : now - t < SCAN_COOLDOWN
          · rw [should_process_qr_of_recent (clean_old_qrs_of_fresh h hgt) hlt,
              should_process_qr_of_recent h hlt]
          · rw [should_process_qr_of_stale (clean_old_qrs_of_fresh h hgt) hlt,
              should_process_qr_of_stale h hlt]

theorem clean_old_qrs_spec_witness :
    clean_old_qrs (fun q => if q = "old" then some 0 else none) 11 "old" = none
    ∧ (should_process_qr
        (clean_old_qrs (fun q => if q = "old" then some 0 else none) 11)
        11 "old").1
      = (should_process_qr (fun q => if q = "old" then some 0 else none)
          11 "old").1 := by
  have h := clean_old_qrs_spec (fun q => if q = "old" then some 0 else none) 11
  refine ⟨?_, h.2 "old"⟩
  exact clean_old_qrs_of_old (t := 0) (by simp) (by norm_num [SCAN_COOLDOWN])

/-- Characters allowed after the first character of a URL scheme
(`urllib.parse.scheme_chars`: ASCII letters, digits, `+`, `-`, `.`). -/
def scheme_char (c : Char) : Bool :=
  c.isAlpha || c.isDigit || c == '+' || c == '-' || c == '.'

/-- Splits a character list at its first `':'`, returning the parts before and
after it, or `none` when there is no colon. -/
def splitAtColon : List Char → Option (List Char × List Char)
  | [] => none
  | c :: cs =>
      if c == ':' then some ([], cs)
      else (splitAtColon cs).map fun p => (c :: p.1, p.2)

/-- Takes the characters before the first of `/`, `?`, `#`
(`urllib.parse._splitnetloc`). -/
def netlocPrefix : List Char → List Char
  | [] => []
  | c :: cs =>
      if c == '/' || c == '?' || c == '#' then []
      else c :: netlocPrefix cs

/-- Modelled from the spec: the scheme/authority split of the external
`urllib.parse.urlparse` (Python standard library, not part of `src/`), per
the spec's parsing contract -- the scheme is a leading `[A-Za-z][A-Za-z0-9+.-]*`
before a colon (lower-cased), and the authority (netloc) is the run after a
leading `//` of the remainder, up to the first `/`, `?` or `#`.  Returns the
pair `(scheme, netloc)`. -/
def urlparse_scheme_netloc (l : List Char) : List Char × List Char :=
  let (scheme, rest) :=
    match splitAtColon l with
    | none => (([] : List Char), l)
    | some (pre, post) =>
        match pre with
        | [] => (([] : List Char), l)
        | c :: cs =>
            if c.isAlpha && cs.all scheme_char then
              (c.toLower :: cs.map Char.toLower, post)
            else (([] : List Char), l)
  match rest with
  | '/' :: '/' :: rest2 => (scheme, netlocPrefix rest2)
  | _ => (scheme, ([] : List Char))

/-- Embeds `is_valid_url` (src/qr_scanner.py:99-105):
`all([result.scheme, result.netloc])`, i.e. both strings non-empty.  (The
`except` branch is dead in this embedding: the modelled parser is total, and
`urlparse` raises only on inputs outside the modelled contract.) -/
def is_valid_url (url : String) : Bool :=
  let result := urlparse_scheme_netloc url.toList
  !result.1.isEmpty && !result.2.isEmpty

/-- C6 -- The classifier returns `true` exactly when the parse yields a
non-empty scheme and a non-empty authority component; the spec's boundary
examples: `"https://example.com/x"` is an actionable URL, `"hello world"` and
`"mailto:a@b.com"` are not, and scheme-only (`"https:"`, `"https://"`) and
host-only (`"example.com"`, `"//example.com"`) partial strings are rejected. -/
theorem is_valid_url_spec :
    (∀ url : String,
      is_valid_url url = true ↔
        ((urlparse_scheme_netloc url.toList).1 ≠ []
          ∧ (urlparse_scheme_netloc url.toList).2 ≠ []))
    ∧ is_valid_url "https://example.com/x" = true
    ∧ is_valid_url "hello world" = false
    ∧ is_valid_url "mailto:a@b.com" = false
    ∧ is_valid_url "https:" = false
    ∧ is_valid_url "https://" = false
    ∧ is_valid_url "example.com" = false
    ∧ is_valid_url "//example.com" = false := by
  refine ⟨?_, by decide, by decide, by decide, by decide, by decide,
    by decide, by decide⟩
  intro url
  unfold is_valid_url
  cases h : urlparse_scheme_netloc url.toList with
  | mk s n =>
      simp [List.isEmpty_iff]

theorem is_valid_url_spec_witness :
    is_valid_url "http://a" = true
    ∧ ((urlparse_scheme_netloc "http://a".toList).1 ≠ []
        ∧ (urlparse_scheme_netloc "http://a".toList).2 ≠ []) :=
  ⟨((is_valid_url_spec.1 "http://a").mpr (by decide)), by decide⟩

/-- Python `s.split(sep)` for a one-character separator, at character level
(always returns at least one, possibly empty, group). -/
def pySplitChar (sep : Char) : List Char → List (List Char)
  | [] => [[]]
  | c :: cs =>
      if c == sep then [] :: pySplitChar sep cs
      else
        match pySplitChar sep cs with
        | [] => [[c]]
        | g :: gs => (c :: g) :: gs

/-- The characters strictly before the first occurrence of `sep`. -/
def untilSep (sep : Char) : List Char → List Char
  | [] => []
  | c :: cs => if c = sep then [] else c :: untilSep sep cs

/-- The characters strictly after the first occurrence of `sep` (everything
when `sep` does not occur ... callers guard on occurrence). -/
def afterSep (sep : Char) : List Char → List Char
  | [] => []
  | c :: cs => if c = sep then cs else afterSep sep cs

/-- Embeds the prefix handling of `decode_frame` (src/qr_scanner.py:44-55):
the string handed to `base64.b64decode` -- `base64_string.split(',')[1]` when
the payload contains a comma, the whole payload otherwise.  The base64 and
image decoding themselves are external capabilities and are not modelled. -/
def decode_frame_b64input (s : List Char) : List Char :=
  if s.contains ',' then ((pySplitChar ',' s).drop 1).headD [] else s

/-- The decoder input as claim C8 reads it: strip everything through the first
comma and decode the ENTIRE remainder; payloads without a comma are decoded
whole.  (To be compared against `decode_frame_b64input`.) -/
def decode_frame_b64input_claim (s : List Char) : List Char :=
  if s.contains ',' then afterSep ',' s else s

theorem pySplitChar_ne_nil (sep : Char) (s : List Char) :
    pySplitChar sep s ≠ [] := by
  induction s with
  | nil => simp [pySplitChar]
  | cons c cs ih =>
      by_cases hc : c = sep
      · simp [pySplitChar, hc]
      · obtain ⟨g, gs, hg⟩ : ∃ g gs, pySplitChar sep cs = g :: gs := by
          cases hpc : pySplitChar sep cs with
          | nil => exact absurd hpc ih
          | cons g gs => exact ⟨g, gs, rfl⟩
        simp [pySplitChar, beq_iff_eq, hc, hg]

theorem pySplitChar_headD (sep : Char) (s : List Char) :
    (pySplitChar sep s).headD [] = untilSep sep s := by
  induction s with
  | nil => simp [pySplitChar, untilSep]
  | cons c cs ih =>
      by_cases hc : c = sep
      · simp [pySplitChar, untilSep, hc]
      · obtain ⟨g, gs, hg⟩ : ∃ g gs, pySplitChar sep cs = g :: gs := by
          cases hpc : pySplitChar sep cs with
          | nil => exact absurd hpc (pySplitChar_ne_nil sep cs)
          | cons g gs => exact ⟨g, gs, rfl⟩
        rw [hg] at ih
        simp only [List.headD_cons] at ih
        simp [pySplitChar, untilSep, beq_iff_eq, hc, hg, ih]

theorem pySplitChar_second (sep : Char) (s : List Char) :
    ((pySplitChar sep s).drop 1).headD [] =
      if s.contains sep then untilSep sep (afterSep sep s) else [] := by
  induction s with
  | nil => simp [pySplitChar]
  | cons c cs ih =>
      by_cases hc : c = sep
      · have h1 : pySplitChar sep (c :: cs) = [] :: pySplitChar sep cs := by
          simp [pySplitChar, hc]
        have h2 : (c :: cs).contains sep = true := by
          simp [List.contains_cons, hc]
        rw [h1, h2, List.drop_succ_cons, List.drop_zero, pySplitChar_headD]
        simp [afterSep, hc]
      · obtain ⟨g, gs, hg⟩ : ∃ g gs, pySplitChar sep cs = g :: gs := by
          cases hpc : pySplitChar sep cs with
          | nil => exact absurd hpc (pySplitChar_ne_nil sep cs)
          | cons g gs => exact ⟨g, gs, rfl⟩
        have h1 : pySplitChar sep (c :: cs) = (c :: g) :: gs := by
          simp [pySplitChar, beq_eq_false_iff_ne.mpr hc, hg]
        have h2 : (c :: cs).contains sep = cs.contains sep := by
          rw [List.contains_cons, beq_eq_false_iff_ne.mpr (Ne.symm hc),
            Bool.false_or]
        have h3 : afterSep sep (c :: cs) = afterSep sep cs := by
          simp [afterSep, hc]
        rw [h1, h2, h3, List.drop_succ_cons, List.drop_zero]
        rw [hg] at ih
        simp only [List.drop_succ_cons, List.drop_zero] at ih
        exact ih

theorem untilSep_of_not_contains {sep : Char} {s : List Char}
    (h : s.contains sep = false) : untilSep sep s = s := by
  induction s with
  | nil => simp [untilSep]
  | cons c cs ih =>
      rw [List.contains_cons] at h
      simp only [Bool.or_eq_false_iff, beq_eq_false_iff_ne] at h
      simp [untilSep, Ne.symm h.1, ih h.2]

/-- C8 counterexample -- on the payload `"m,AA,BB"` the code base64-decodes
only `"AA"` (the segment between the first and second commas), not the entire
remainder `"AA,BB"` that the claim prescribes. -/
theorem decode_frame_b64input_counterexample :
    decode_frame_b64input ("m,AA,BB".toList) = "AA".toList
    ∧ decode_frame_b64input_claim ("m,AA,BB".toList) = "AA,BB".toList
    ∧ decode_frame_b64input ("m,AA,BB".toList)
        ≠ decode_frame_b64input_claim ("m,AA,BB".toList) := by
  refine ⟨by decide, by decide, by decide⟩

/-- C8 amended -- when the payload contains a comma the decoder base64-decodes
the segment between the first and the second comma (so it agrees with the
claim's "entire remainder" reading exactly when the remainder contains no
further comma, the normal data-URI case); payloads without a comma are decoded
whole. -/
theorem decode_frame_b64input_spec (s : List Char) :
    (s.contains ',' = true →
      decode_frame_b64input s = untilSep ',' (afterSep ',' s))
    ∧ (s.contains ',' = false → decode_frame_b64input s = s)
    ∧ ((afterSep ',' s).contains ',' = false →
      decode_frame_b64input s = decode_frame_b64input_claim s) := by
  refine ⟨?_, ?_, ?_⟩
  · intro h
    unfold decode_frame_b64input
    rw [pySplitChar_second, h]
    simp
  · intro h
    unfold decode_frame_b64input
    rw [h]
    simp
  · intro h
    unfold decode_frame_b64input decode_frame_b64input_claim
    cases hc : s.contains ',' with
    | false => simp
    | true =>
        rw [pySplitChar_second, hc]
        simp [untilSep_of_not_contains h]

theorem decode_frame_b64input_spec_witness :
    decode_frame_b64input ("data:image/jpeg;base64,QUJD".toList)
        = "QUJD".toList
    ∧ decode_frame_b64input ("QUJD".toList) = "QUJD".toList := by
  have h1 := (decode_frame_b64input_spec ("data:image/jpeg;base64,QUJD".toList)).2.2
    (by decide)
  have h2 := (decode_frame_b64input_spec ("QUJD".toList)).2.1 (by decide)
  exact ⟨by rw [h1]; decide, h2⟩

/-- The parts of the frame-store HTTP response that `fetch_camera_frame`
inspects: the status code and, from the parsed JSON body, the optional
`frame` and `timestamp` fields. -/
structure CameraResponse where
  status : Nat
  frame : Option String
  timestamp : Option String
deriving DecidableEq

/-- Embeds `fetch_camera_frame` (src/qr_scanner.py:31-42).  The argument is
`none` for a transport or JSON-parse failure (the `except` path); otherwise
the status code and body fields are inspected as in the source, `"unknown"`
substituted for a missing `timestamp` (`data.get('timestamp', 'unknown')`). -/
def fetch_camera_frame :
    Option CameraResponse → Option String × Option String
  | none => (none, none)
  | some r =>
      if r.status = 200 then
        match r.frame with
        | some f => (some f, some (r.timestamp.getD "unknown"))
        | none => (none, none)
      else (none, none)

/-- One detection record as consumed by the loop: the decoded `data` text and
the symbology `type`.  The `rect`/`polygon` geometry is consumed only by the
preview overlay and does not enter the core state. -/
structure Detection where
  data : String
  type : String
deriving DecidableEq

/-- The startup-time reaction flags (src/qr_scanner.py:26-27). -/
structure Config where
  AUTO_OPEN_URLS : Bool
  SEND_TO_WEB : Bool
deriving DecidableEq

/-- The source's settings: `AUTO_OPEN_URLS = True`, `SEND_TO_WEB = True`. -/
def defaultConfig : Config := { AUTO_OPEN_URLS := true, SEND_TO_WEB := true }

/-- The JSON body that `send_to_website` posts to the event sink. -/
structure QrEvent where
  data : String
  type : String
  is_url : Bool
  timestamp : String
  status : String
deriving DecidableEq

/-- Embeds the payload construction of `send_to_website`
(src/qr_scanner.py:117-145).  The POST itself, its response, and the
`datetime.now()` formatting (`wall`) are external; the function's boolean
return value depends only on the response and influences no state. -/
def send_to_website_payload (cfg : Config) (qr_data qr_type : String)
    (is_url : Bool) (wall : String) : QrEvent :=
  { data := qr_data, type := qr_type, is_url := is_url, timestamp := wall,
    status := if is_url && cfg.AUTO_OPEN_URLS then "opened" else "detected" }

/-- The mutable loop variables of `main` (src/qr_scanner.py:181-183) together
with the module-level `recent_qrs` dict. -/
structure LoopState where
  last_timestamp : Option String
  frame_count : Nat
  qr_count : Nat
  recent_qrs : String → Option ℚ

/-- `last_timestamp = None`, counters 0, empty dedup dict. -/
def initialState : LoopState :=
  { last_timestamp := none, frame_count := 0, qr_count := 0,
    recent_qrs := emptyRecent }

/-- The external world's contribution to one poll cycle: the frame-store
response (`none` = transport/parse failure), whether `decode_frame` produced
an image, the detector's outcome (`none` = `pyzbar.decode` raised), the
`time.time()` reading, and the formatted local time used in event bodies. -/
structure CycleInput where
  resp : Option CameraResponse
  decodeOk : Bool
  detections : Option (List Detection)
  now : ℚ
  wall : String

/-- The observable side effects of one poll cycle: whether `decode_frame` was
invoked, whether the cleanup sweep ran, the URLs passed to `open_url`, and the
events passed to `send_to_website`. -/
structure CycleEffects where
  decodeAttempted : Bool
  cleaned : Bool
  opens : List String
  publishes : List QrEvent
deriving DecidableEq

/-- Embeds the per-detection body of the loop (src/qr_scanner.py:201-227):
dedup check, URL classification, optional open-URL action, optional publish. -/
def processDetection (cfg : Config) (st : LoopState) (now : ℚ) (wall : String)
    (qr : Detection) : LoopState × List String × List QrEvent :=
  if (should_process_qr st.recent_qrs now qr.data).1 then
    ({ st with
        recent_qrs := (should_process_qr st.recent_qrs now qr.data).2,
        qr_count := st.qr_count + 1 },
      if is_valid_url qr.data && cfg.AUTO_OPEN_URLS then [qr.data] else [],
      if cfg.SEND_TO_WEB then
        [send_to_website_payload cfg qr.data qr.type (is_valid_url qr.data)
          wall]
      else [])
  else
    ({ st with recent_qrs := (should_process_qr st.recent_qrs now qr.data).2 },
      [], [])

/-- Folds `processDetection` over the detections of one frame, in detector
order. -/
def processDetections (cfg : Config) (now : ℚ) (wall : String) :
    LoopState → List Detection → LoopState × List String × List QrEvent
  | st, [] => (st, [], [])
  | st, qr :: rest =>
      let r1 := processDetection cfg st now wall qr
      let r2 := processDetections cfg now wall r1.1 rest
      (r2.1, r1.2.1 ++ r2.2.1, r1.2.2 ++ r2.2.2)

/-- The outcome of one poll cycle; `crashed = true` marks an exception that no
handler catches, so the `while` loop terminates there. -/
structure CycleResult where
  state : LoopState
  effects : CycleEffects
  crashed : Bool

/-- The tail of every non-crashing cycle (src/qr_scanner.py:250-251): run
`clean_old_qrs` when `frame_count % 100 == 0`. -/
def finishCycle (st : LoopState) (dec : Bool) (opens : List String)
    (pubs : List QrEvent) (now : ℚ) : CycleResult :=
  if st.frame_count % 100 = 0 then
    { state := { st with recent_qrs := clean_old_qrs st.recent_qrs now },
      effects := { decodeAttempted := dec, cleaned := true,
                   opens := opens, publishes := pubs },
      crashed := false }
  else
    { state := st,
      effects := { decodeAttempted := dec, cleaned := false,
                   opens := opens, publishes := pubs },
      crashed := false }

/-- Python truthiness of the fetched `frame_base64` value (`if frame_base64`):
present and non-empty. -/
def pyTruthy : Option String → Bool
  | none => false
  | some s => !s.isEmpty

/-- The new-frame part of a cycle, after `frame_count` and `last_timestamp`
are updated (src/qr_scanner.py:190-248, preview display omitted).  A raising
`pyzbar.decode` (detections = `none`) escapes: the cycle reports `crashed`
and nothing after the detection call -- in particular no cleanup -- runs. -/
def runNewFrame (cfg : Config) (st1 : LoopState) (i : CycleInput) :
    CycleResult :=
  if i.decodeOk then
    match i.detections with
    | none =>
        { state := st1,
          effects := { decodeAttempted := true, cleaned := false,
                       opens := [], publishes := [] },
          crashed := true }
    | some qrs =>
        let r := processDetections cfg i.now i.wall st1 qrs
        finishCycle r.1 true r.2.1 r.2.2 i.now
  else finishCycle st1 true [] [] i.now

/-- Embeds one iteration of the `while True` loop of `main`
(src/qr_scanner.py:186-253): the frame is decoded only when the fetched
payload is truthy and its token differs from `last_timestamp`. -/
def runCycle (cfg : Config) (st : LoopState) (i : CycleInput) : CycleResult :=
  if pyTruthy (fetch_camera_frame i.resp).1 = true
      ∧ (fetch_camera_frame i.resp).2 ≠ st.last_timestamp then
    runNewFrame cfg
      { st with
        frame_count := st.frame_count + 1,
        last_timestamp := (fetch_camera_frame i.resp).2 } i
  else finishCycle st false [] [] i.now

/-- Runs the poll loop over a list of cycle inputs, stopping at the first
crashing cycle; returns the per-cycle effects, the final state, and whether
the run ended in a crash. -/
def runLoop (cfg : Config) : LoopState → List CycleInput →
    List CycleEffects × LoopState × Bool
  | st, [] => ([], st, false)
  | st, i :: rest =>
      if (runCycle cfg st i).crashed = true then
        ([(runCycle cfg st i).effects], (runCycle cfg st i).state, true)
      else
        ((runCycle cfg st i).effects
            :: (runLoop cfg (runCycle cfg st i).state rest).1,
          (runLoop cfg (runCycle cfg st i).state rest).2.1,
          (runLoop cfg (runCycle cfg st i).state rest).2.2)

/-- Number of cycles of a run that invoked `decode_frame`. -/
def decodeCount (es : List CycleEffects) : Nat :=
  (es.filter fun e => e.decodeAttempted).length

/-- Number of cycles of a run that ran the cleanup sweep. -/
def cleanCount (es : List CycleEffects) : Nat :=
  (es.filter fun e => e.cleaned).length

theorem finishCycle_crashed (st : LoopState) (dec : Bool)
    (opens : List String) (pubs : List QrEvent) (now : ℚ) :
    (finishCycle st dec opens pubs now).crashed = false := by
  unfold finishCycle; split <;> rfl

theorem finishCycle_decodeAttempted (st : LoopState) (dec : Bool)
    (opens : List String) (pubs : List QrEvent) (now : ℚ) :
    (finishCycle st dec opens pubs now).effects.decodeAttempted = dec := by
  unfold finishCycle; split <;> rfl

theorem finishCycle_cleaned (st : LoopState) (dec : Bool)
    (opens : List String) (pubs : List QrEvent) (now : ℚ) :
    (finishCycle st dec opens pubs now).effects.cleaned
      = decide (st.frame_count % 100 = 0) := by
  unfold finishCycle
  split
  · next h => simp [h]
  · next h => simp [h]

theorem finishCycle_frame_count (st : LoopState) (dec : Bool)
    (opens : List String) (pubs : List QrEvent) (now : ℚ) :
    (finishCycle st dec opens pubs now).state.frame_count
      = st.frame_count := by
  unfold finishCycle; split <;> rfl

theorem finishCycle_last (st : LoopState) (dec : Bool) (opens : List String)
    (pubs : List QrEvent) (now : ℚ) :
    (finishCycle st dec opens pubs now).state.last_timestamp
      = st.last_timestamp := by
  unfold finishCycle; split <;> rfl

theorem finishCycle_opens (st : LoopState) (dec : Bool) (opens : List String)
    (pubs : List QrEvent) (now : ℚ) :
    (finishCycle st dec opens pubs now).effects.opens = opens := by
  unfold finishCycle; split <;> rfl

theorem finishCycle_publishes (st : LoopState) (dec : Bool)
    (opens : List String) (pubs : List QrEvent) (now : ℚ) :
    (finishCycle st dec opens pubs now).effects.publishes = pubs := by
  unfold finishCycle; split <;> rfl

theorem processDetection_frame_count (cfg : Config) (st : LoopState) (now : ℚ)
    (wall : String) (qr : Detection) :
    (processDetection cfg st now wall qr).1.frame_count = st.frame_count := by
  unfold processDetection; split <;> rfl

theorem processDetection_last (cfg : Config) (st : LoopState) (now : ℚ)
    (wall : String) (qr : Detection) :
    (processDetection cfg st now wall qr).1.last_timestamp
      = st.last_timestamp := by
  unfold processDetection; split <;> rfl

theorem processDetections_frame_count (cfg : Config) (now : ℚ) (wall : String)
    (qrs : List Detection) :
    ∀ st : LoopState,
      (processDetections cfg now wall st qrs).1.frame_count
        = st.frame_count := by
  induction qrs with
  | nil => intro st; rfl
  | cons qr rest ih =>
      intro st
      show (processDetections cfg now wall
        (processDetection cfg st now wall qr).1 rest).1.frame_count
          = st.frame_count
      rw [ih, processDetection_frame_count]

theorem processDetections_last (cfg : Config) (now : ℚ) (wall : String)
    (qrs : List Detection) :
    ∀ st : LoopState,
      (processDetections cfg now wall st qrs).1.last_timestamp
        = st.last_timestamp := by
  induction qrs with
  | nil => intro st; rfl
  | cons qr rest ih =>
      intro st
      show (processDetections cfg now wall
        (processDetection cfg st now wall qr).1 rest).1.last_timestamp
          = st.last_timestamp
      rw [ih, processDetection_last]

theorem runNewFrame_cases (cfg : Config) (st1 : LoopState) (i : CycleInput) :
    (i.decodeOk = true ∧ i.detections = none
      ∧ runNewFrame cfg st1 i
          = { state := st1,
              effects := { decodeAttempted := true, cleaned := false,
                           opens := [], publishes := [] },
              crashed := true })
    ∨ (∃ (st2 : LoopState) (opens : List String) (pubs : List QrEvent),
        runNewFrame cfg st1 i = finishCycle st2 true opens pubs i.now
        ∧ st2.frame_count = st1.frame_count
        ∧ st2.last_timestamp = st1.last_timestamp) := by
  by_cases hd : i.decodeOk = true
  · cases hdet : i.detections with
    | none => exact Or.inl ⟨hd, rfl, by simp [runNewFrame, hd, hdet]⟩
    | some qrs =>
        refine Or.inr ⟨(processDetections cfg i.now i.wall st1 qrs).1,
          (processDetections cfg i.now i.wall st1 qrs).2.1,
          (processDetections cfg i.now i.wall st1 qrs).2.2,
          by simp [runNewFrame, hd, hdet], ?_, ?_⟩
        · exact processDetections_frame_count cfg i.now i.wall qrs st1
        · exact processDetections_last cfg i.now i.wall qrs st1
  · exact Or.inr ⟨st1, [], [], by simp [runNewFrame, hd], rfl, rfl⟩

theorem runNewFrame_decodeAttempted (cfg : Config) (st1 : LoopState)
    (i : CycleInput) :
    (runNewFrame cfg st1 i).effects.decodeAttempted = true := by
  rcases runNewFrame_cases cfg st1 i with ⟨_, _, heq⟩ | ⟨s2, o, p, heq, _, _⟩
  · rw [heq]
  · rw [heq, finishCycle_decodeAttempted]

theorem runNewFrame_last (cfg : Config) (st1 : LoopState) (i : CycleInput) :
    (runNewFrame cfg st1 i).state.last_timestamp = st1.last_timestamp := by
  rcases runNewFrame_cases cfg st1 i with ⟨_, _, heq⟩ | ⟨s2, o, p, heq, _, hl⟩
  · rw [heq]
  · rw [heq, finishCycle_last, hl]

theorem runNewFrame_cleaned_iff (cfg : Config) (st1 : LoopState)
    (i : CycleInput) :
    ((runNewFrame cfg st1 i).effects.cleaned = true ↔
      ((runNewFrame cfg st1 i).crashed = false
        ∧ (runNewFrame cfg st1 i).state.frame_count % 100 = 0)) := by
  rcases runNewFrame_cases cfg st1 i with ⟨_, _, heq⟩ | ⟨s2, o, p, heq, _, _⟩
  · rw [heq]; simp
  · rw [heq, finishCycle_cleaned, finishCycle_crashed,
      finishCycle_frame_count]
    simp

theorem runCycle_pos (cfg : Config) (st : LoopState) (i : CycleInput)
    (h : pyTruthy (fetch_camera_frame i.resp).1 = true
      ∧ (fetch_camera_frame i.resp).2 ≠ st.last_timestamp) :
    runCycle cfg st i = runNewFrame cfg
      { st with
        frame_count := st.frame_count + 1,
        last_timestamp := (fetch_camera_frame i.resp).2 } i := by
  unfold runCycle; rw [if_pos h]

theorem runCycle_neg (cfg : Config) (st : LoopState) (i : CycleInput)
    (h : ¬(pyTruthy (fetch_camera_frame i.resp).1 = true
      ∧ (fetch_camera_frame i.resp).2 ≠ st.last_timestamp)) :
    runCycle cfg st i = finishCycle st false [] [] i.now := by
  unfold runCycle; rw [if_neg h]

theorem runLoop_cons_crash (cfg : Config) (st : LoopState) (i : CycleInput)
    (rest : List CycleInput) (h : (runCycle cfg st i).crashed = true) :
    runLoop cfg st (i :: rest)
      = ([(runCycle cfg st i).effects], (runCycle cfg st i).state, true) := by
  unfold runLoop; rw [if_pos h]

theorem runLoop_cons_ok (cfg : Config) (st : LoopState) (i : CycleInput)
    (rest : List CycleInput) (h : (runCycle cfg st i).crashed = false) :
    runLoop cfg st (i :: rest)
      = ((runCycle cfg st i).effects
            :: (runLoop cfg (runCycle cfg st i).state rest).1,
          (runLoop cfg (runCycle cfg st i).state rest).2.1,
          (runLoop cfg (runCycle cfg st i).state rest).2.2) := by
  simp only [runLoop]; rw [if_neg (by simp [h])]

theorem decodeCount_cons (e : CycleEffects) (es : List CycleEffects) :
    decodeCount (e :: es)
      = (if e.decodeAttempted then 1 else 0) + decodeCount es := by
  unfold decodeCount
  by_cases h : e.decodeAttempted
  · simp [List.filter_cons, h]
    omega
  · simp [List.filter_cons, h]

theorem decodeCount_singleton_le (e : CycleEffects) : decodeCount [e] ≤ 1 := by
  rw [decodeCount_cons]
  by_cases h : e.decodeAttempted <;> simp [h, decodeCount]

/-- A cycle input whose fetch yields frame `"f"` with token `tok`; the decode
oracle fails, so the cycle takes the decode-failure branch. -/
def fetchInput (tok : String) : CycleInput :=
  { resp := some { status := 200, frame := some "f", timestamp := some tok },
    decodeOk := false, detections := some [], now := 0, wall := "w" }

/-- A cycle input whose fetch fails (transport error / the `except` path). -/
def noFrameInput : CycleInput :=
  { resp := none, decodeOk := false, detections := some [], now := 0,
    wall := "w" }

/-- A cycle whose frame decodes but whose `pyzbar.decode` call raises. -/
def crashInput : CycleInput :=
  { resp := some { status := 200, frame := some "f", timestamp := some "t1" },
    decodeOk := true, detections := none, now := 0, wall := "w" }

/-- A cycle whose frame decodes and carries one URL-type detection. -/
def urlInput : CycleInput :=
  { resp := some { status := 200, frame := some "f", timestamp := some "t1" },
    decodeOk := true,
    detections := some [{ data := "https://example.com/x", type := "QRCODE" }],
    now := 0, wall := "2026-10-12 00:00:00" }

/-- A cycle whose 200 response carries a frame but no `timestamp` field. -/
def noTsInput : CycleInput :=
  { resp := some { status := 200, frame := some "f", timestamp := none },
    decodeOk := false, detections := some [], now := 0, wall := "w" }

/-- The configuration with `AUTO_OPEN_URLS = False`, `SEND_TO_WEB = True`. -/
def cfgNoOpen : Config := { AUTO_OPEN_URLS := false, SEND_TO_WEB := true }

/-- C9 -- `fetch_camera_frame` never raises to its caller (the source's
`except` returns instead): a transport/parse failure, a missing `frame`
field, and a non-success status each yield `(none, none)`, and the poll loop
treats such a cycle as "no frame available": nothing is decoded and the cycle
does not crash, so the loop continues. -/
theorem fetch_camera_frame_spec :
    fetch_camera_frame none = (none, none)
    ∧ (∀ r : CameraResponse, r.frame = none →
        fetch_camera_frame (some r) = (none, none))
    ∧ (∀ r : CameraResponse, r.status ≠ 200 →
        fetch_camera_frame (some r) = (none, none))
    ∧ (∀ (cfg : Config) (st : LoopState) (i : CycleInput),
        fetch_camera_frame i.resp = (none, none) →
        (runCycle cfg st i).crashed = false
        ∧ (runCycle cfg st i).effects.decodeAttempted = false) := by
  refine ⟨rfl, ?_, ?_, ?_⟩
  · intro r h
    simp only [fetch_camera_frame]
    by_cases hs : r.status = 200
    · rw [if_pos hs, h]
    · rw [if_neg hs]
  · intro r h
    simp only [fetch_camera_frame]
    rw [if_neg h]
  · intro cfg st i h
    have hc : ¬(pyTruthy (fetch_camera_frame i.resp).1 = true
        ∧ (fetch_camera_frame i.resp).2 ≠ st.last_timestamp) := by
      rw [h]
      rintro ⟨h1, _⟩
      exact absurd h1 (by simp [pyTruthy])
    rw [runCycle_neg cfg st i hc]
    exact ⟨finishCycle_crashed _ _ _ _ _,
      finishCycle_decodeAttempted _ _ _ _ _⟩

/-- A 404 response used to exercise the non-success branch of the fetch. -/
def resp404 : CameraResponse :=
  { status := 404, frame := some "f", timestamp := some "t" }

theorem fetch_camera_frame_spec_witness :
    fetch_camera_frame (some resp404) = (none, none)
    ∧ (runCycle defaultConfig initialState noFrameInput).crashed = false := by
  refine ⟨fetch_camera_frame_spec.2.2.1 resp404 (by decide), ?_⟩
  exact (fetch_camera_frame_spec.2.2.2 defaultConfig initialState
    noFrameInput rfl).1

/-- C7 -- a poll cycle invokes `decode_frame` exactly when the fetch returned
a truthy payload whose token differs from the last-seen token; on the fetch
token sequence T1, T1, T2, T2 (payload present throughout) exactly 2 decode
attempts occur. -/
theorem decode_gate_spec :
    (∀ (cfg : Config) (st : LoopState) (i : CycleInput),
      ((runCycle cfg st i).effects.decodeAttempted = true ↔
        (pyTruthy (fetch_camera_frame i.resp).1 = true
          ∧ (fetch_camera_frame i.resp).2 ≠ st.last_timestamp)))
    ∧ decodeCount (runLoop defaultConfig initialState
        [fetchInput "T1", fetchInput "T1", fetchInput "T2",
          fetchInput "T2"]).1 = 2 := by
  constructor
  · intro cfg st i
    by_cases h : pyTruthy (fetch_camera_frame i.resp).1 = true
        ∧ (fetch_camera_frame i.resp).2 ≠ st.last_timestamp
    · rw [runCycle_pos cfg st i h]
      exact iff_of_true (runNewFrame_decodeAttempted _ _ _) h
    · rw [runCycle_neg cfg st i h, finishCycle_decodeAttempted]
      exact iff_of_false (by simp) h
  · decide

theorem decode_gate_spec_witness :
    (runCycle defaultConfig initialState
      (fetchInput "T1")).effects.decodeAttempted = true :=
  (decode_gate_spec.1 defaultConfig initialState (fetchInput "T1")).mpr
    ⟨by decide, by decide⟩

/-- Input list for the sweep-cadence refutation: one processed frame followed
by 150 cycles with no frame available. -/
def stallInputs : List CycleInput :=
  fetchInput "T1" :: List.replicate 150 noFrameInput

set_option maxRecDepth 8000 in
/-- C2 counterexample -- the sweep condition is `frame_count % 100 == 0`, a
modulus on the processed-frame counter, not on poll cycles: after one
processed frame (`frame_count = 1`) the sweep does not run for 150 further
poll cycles (151 cycles, 0 sweeps), while with no frame ever processed
(`frame_count = 0`) it runs on every single cycle (2 cycles, 2 sweeps). -/
theorem clean_cadence_counterexample :
    (runLoop defaultConfig initialState stallInputs).1.length = 151
    ∧ cleanCount (runLoop defaultConfig initialState stallInputs).1 = 0
    ∧ cleanCount (runLoop defaultConfig initialState
        [noFrameInput, noFrameInput]).1 = 2 := by
  decide

/-- C2 amended -- the sweep runs at the end of exactly those non-crashing
poll cycles where the processed-frame counter `frame_count` -- not the
poll-cycle count -- is divisible by 100 after the cycle's possible increment;
its cadence therefore tracks new-frame arrivals rather than poll cycles. -/
theorem runCycle_cleaned_iff (cfg : Config) (st : LoopState)
    (i : CycleInput) :
    ((runCycle cfg st i).effects.cleaned = true ↔
      ((runCycle cfg st i).crashed = false
        ∧ (runCycle cfg st i).state.frame_count % 100 = 0)) := by
  by_cases h : pyTruthy (fetch_camera_frame i.resp).1 = true
      ∧ (fetch_camera_frame i.resp).2 ≠ st.last_timestamp
  · rw [runCycle_pos cfg st i h]
    exact runNewFrame_cleaned_iff cfg _ i
  · rw [runCycle_neg cfg st i h, finishCycle_cleaned, finishCycle_crashed,
      finishCycle_frame_count]
    simp

theorem runCycle_cleaned_iff_witness :
    (runCycle defaultConfig initialState noFrameInput).effects.cleaned
      = true :=
  (runCycle_cleaned_iff defaultConfig initialState noFrameInput).mpr
    ⟨by decide, by decide⟩

/-- C3 -- nothing catches a raising `pyzbar.decode`: on a decoded frame whose
detection call raises, the cycle ends crashed (the claim's
caught-as-zero-detections recovery does not happen), and the loop terminates
there instead of continuing -- a run given two such inputs executes only one
cycle and reports the crash. -/
theorem scan_qr_codes_crash_propagates :
    (runCycle defaultConfig initialState crashInput).crashed = true
    ∧ (runLoop defaultConfig initialState
        [crashInput, crashInput]).1.length = 1
    ∧ (runLoop defaultConfig initialState [crashInput, crashInput]).2.2
        = true := by
  decide

/-- C5 -- the published event's status is `"opened"` exactly when the payload
is URL-classified and `AUTO_OPEN_URLS` is enabled -- the same condition under
which the open attempt is issued for an accepted detection -- and `"detected"`
in every other case; the event carries nothing about the open attempt's own
outcome.  End-to-end on a fresh state: one URL detection with both flags on
yields exactly one open attempt and one publish with status `"opened"`; with
`AUTO_OPEN_URLS = false` no open attempt occurs and the single publish
carries status `"detected"`. -/
theorem publish_status_spec :
    (∀ (cfg : Config) (d t : String) (u : Bool) (w : String),
      ((send_to_website_payload cfg d t u w).status = "opened" ↔
        (u = true ∧ cfg.AUTO_OPEN_URLS = true))
      ∧ ((send_to_website_payload cfg d t u w).status = "opened"
          ∨ (send_to_website_payload cfg d t u w).status = "detected"))
    ∧ (∀ (cfg : Config) (st : LoopState) (now : ℚ) (w : String)
        (qr : Detection),
        (should_process_qr st.recent_qrs now qr.data).1 = true →
        ((processDetection cfg st now w qr).2.1 ≠ [] ↔
          (is_valid_url qr.data = true ∧ cfg.AUTO_OPEN_URLS = true)))
    ∧ (runCycle defaultConfig initialState urlInput).effects.opens
        = ["https://example.com/x"]
    ∧ (runCycle defaultConfig initialState urlInput).effects.publishes.map
        QrEvent.status = ["opened"]
    ∧ (runCycle cfgNoOpen initialState urlInput).effects.opens = []
    ∧ (runCycle cfgNoOpen initialState urlInput).effects.publishes.map
        QrEvent.status = ["detected"] := by
  refine ⟨?_, ?_, by decide, by decide, by decide, by decide⟩
  · intro cfg d t u w
    constructor
    · simp only [send_to_website_payload]
      by_cases hu : u = true
      · by_cases ha : cfg.AUTO_OPEN_URLS = true
        · simp [hu, ha]
        · simp [hu, ha]
      · simp [hu]
    · simp only [send_to_website_payload]
      by_cases h : (u && cfg.AUTO_OPEN_URLS) = true
      · exact Or.inl (by simp [h])
      · exact Or.inr (by simp [h])
  · intro cfg st now w qr hacc
    simp only [processDetection]
    rw [if_pos hacc]
    by_cases hv : is_valid_url qr.data = true
    · by_cases ha : cfg.AUTO_OPEN_URLS = true
      · simp [hv, ha]
      · simp [hv, ha]
    · simp [hv]

theorem publish_status_spec_witness :
    (send_to_website_payload defaultConfig "d" "t" true "w").status = "opened"
    ∧ (processDetection defaultConfig initialState 0 "w"
        { data := "https://example.com/x", type := "QRCODE" }).2.1 ≠ [] := by
  constructor
  · exact (publish_status_spec.1 defaultConfig "d" "t" true "w").1.mpr
      ⟨rfl, rfl⟩
  · exact (publish_status_spec.2.1 defaultConfig initialState 0 "w"
      { data := "https://example.com/x", type := "QRCODE" } (by decide)).mpr
      ⟨by decide, rfl⟩

/-- A 200 frame-store body with a frame and no `timestamp` field. -/
def respNoTs (f : String) : CameraResponse :=
  { status := 200, frame := some f, timestamp := none }

/-- A cycle input whose response carries a truthy frame but no timestamp. -/
def noTsResp (i : CycleInput) : Prop :=
  ∃ f : String, f ≠ "" ∧ i.resp = some (respNoTs f)

theorem fetch_noTs {i : CycleInput} (h : noTsResp i) :
    ∃ f : String, f ≠ ""
      ∧ fetch_camera_frame i.resp = (some f, some "unknown") := by
  obtain ⟨f, hf, hr⟩ := h
  exact ⟨f, hf, by rw [hr]; rfl⟩

theorem runCycle_unknown_skip (cfg : Config) {st : LoopState}
    {i : CycleInput} (hst : st.last_timestamp = some "unknown")
    (h : noTsResp i) :
    runCycle cfg st i = finishCycle st false [] [] i.now := by
  obtain ⟨f, hf, hfe⟩ := fetch_noTs h
  apply runCycle_neg
  rintro ⟨h1, h2⟩
  apply h2
  rw [hfe, hst]

theorem runLoop_unknown_zero (cfg : Config) (inputs : List CycleInput) :
    ∀ st : LoopState, st.last_timestamp = some "unknown" →
      (∀ i ∈ inputs, noTsResp i) →
      decodeCount (runLoop cfg st inputs).1 = 0 := by
  induction inputs with
  | nil => intro st _ _; rfl
  | cons i rest ih =>
      intro st hst hall
      have hcy := runCycle_unknown_skip cfg hst (hall i (by simp))
      have hcr : (runCycle cfg st i).crashed = false := by
        rw [hcy]; exact finishCycle_crashed _ _ _ _ _
      have hlast : (finishCycle st false [] [] i.now).state.last_timestamp
          = some "unknown" := by rw [finishCycle_last, hst]
      rw [runLoop_cons_ok cfg st i rest hcr]
      show decodeCount ((runCycle cfg st i).effects
        :: (runLoop cfg (runCycle cfg st i).state rest).1) = 0
      rw [decodeCount_cons, hcy, finishCycle_decodeAttempted]
      simp only [Bool.false_eq_true, if_false, Nat.zero_add]
      exact ih _ hlast (fun j hj => hall j (List.mem_cons_of_mem i hj))

theorem runLoop_noTs_le_one (cfg : Config) (inputs : List CycleInput) :
    ∀ st : LoopState, (∀ i ∈ inputs, noTsResp i) →
      decodeCount (runLoop cfg st inputs).1 ≤ 1 := by
  induction inputs with
  | nil => intro st _; exact Nat.zero_le 1
  | cons i rest ih =>
      intro st hall
      have hi : noTsResp i := hall i (by simp)
      have hrest : ∀ j ∈ rest, noTsResp j :=
        fun j hj => hall j (List.mem_cons_of_mem i hj)
      by_cases hcond : pyTruthy (fetch_camera_frame i.resp).1 = true
          ∧ (fetch_camera_frame i.resp).2 ≠ st.last_timestamp
      · by_cases hcrash : (runCycle cfg st i).crashed = true
        · rw [runLoop_cons_crash cfg st i rest hcrash]
          exact decodeCount_singleton_le _
        · have hcr : (runCycle cfg st i).crashed = false := by
            cases hb : (runCycle cfg st i).crashed with
            | false => rfl
            | true => exact absurd hb hcrash
          rw [runLoop_cons_ok cfg st i rest hcr]
          show decodeCount ((runCycle cfg st i).effects
            :: (runLoop cfg (runCycle cfg st i).state rest).1) ≤ 1
          rw [decodeCount_cons]
          have hlast : (runCycle cfg st i).state.last_timestamp
              = some "unknown" := by
            rw [runCycle_pos cfg st i hcond, runNewFrame_last]
            obtain ⟨f, hf, hfe⟩ := fetch_noTs hi
            show (fetch_camera_frame i.resp).2 = some "unknown"
            rw [hfe]
          rw [runLoop_unknown_zero cfg rest _ hlast hrest]
          by_cases hd : (runCycle cfg st i).effects.decodeAttempted
          · simp [hd]
          · simp [hd]
      · have hcy := runCycle_neg cfg st i hcond
        have hcr : (runCycle cfg st i).crashed = false := by
          rw [hcy]; exact finishCycle_crashed _ _ _ _ _
        rw [runLoop_cons_ok cfg st i rest hcr]
        show decodeCount ((runCycle cfg st i).effects
          :: (runLoop cfg (runCycle cfg st i).state rest).1) ≤ 1
        rw [decodeCount_cons, hcy, finishCycle_decodeAttempted]
        simp only [Bool.false_eq_true, if_false, Nat.zero_add]
        exact ih _ hrest

/-- C10 -- a 200 response with a `frame` field but no `timestamp` field
yields the substitute token `"unknown"` from the fetch, and a run of
consecutive such (truthy) frames decodes and processes at most the first:
once one is processed the stored token is `"unknown"` and each later one is
skipped as unchanged. -/
theorem unknown_timestamp_spec :
    (∀ f : String,
      fetch_camera_frame (some (respNoTs f)) = (some f, some "unknown"))
    ∧ (∀ (cfg : Config) (st : LoopState) (inputs : List CycleInput),
        (∀ i ∈ inputs, noTsResp i) →
        decodeCount (runLoop cfg st inputs).1 ≤ 1) := by
  constructor
  · intro f; rfl
  · intro cfg st inputs hall
    exact runLoop_noTs_le_one cfg inputs st hall

theorem unknown_timestamp_spec_witness :
    fetch_camera_frame (some (respNoTs "f")) = (some "f", some "unknown")
    ∧ decodeCount (runLoop defaultConfig initialState
        [noTsInput, noTsInput, noTsInput]).1 ≤ 1 := by
  constructor
  · exact unknown_timestamp_spec.1 "f"
  · refine unknown_timestamp_spec.2 defaultConfig initialState
      [noTsInput, noTsInput, noTsInput] ?_
    intro j hj
    simp only [List.mem_cons, List.not_mem_nil, or_false] at hj
    rcases hj with h | h | h <;> exact h ▸ ⟨"f", by decide, rfl⟩
